import Mathlib

/-!
Verification development for the GenCard layered card compositor.

The definitions below are a shallow embedding of the geometric core of the
repository: the scale-preset transform (frontend constants/scaleConfig.ts,
re-exported by the backend), the layout-variant catalogue and card
compositing pipeline (backend services/cardComposer.ts), the multi-ring
border renderer and its validation helpers (backend borderRenderer), the
ornamental frame assembler (frame renderer + framePresets.ts), and the
greedy line-wrapping helpers.

Numbers are modelled by exact rationals; JavaScript Math.round is
floor (x + 1/2), Math.ceil and Math.floor are the rational ceiling and
floor.  Raster buffers are modelled by the geometric description that the
source computes for them (dimensions, placements, layer lists); pixel
contents of SVG rasterisation are outside the model.
-/

/-- JavaScript Math.round on exact rationals: floor (x + 1/2). -/
def jsRound (x : ℚ) : ℤ := ⌊x + 1 / 2⌋

/-- Universal geometry primitive, mirroring the source Rect / FrameRect
interfaces with fields x, y, width, height. -/
structure Rect where
  x : ℚ
  y : ℚ
  width : ℚ
  height : ℚ
deriving DecidableEq, Repr

/-- A rectangle with a stable panel id, mirroring TextBoxRect /
ScalableRectWithId. -/
structure BoxRect where
  id : String
  x : ℚ
  y : ℚ
  width : ℚ
  height : ℚ
deriving DecidableEq, Repr

/-- Forget the id, keeping the geometry. -/
def BoxRect.toRect (b : BoxRect) : Rect :=
  { x := b.x, y := b.y, width := b.width, height := b.height }

/-- Canvas dimensions. -/
structure Canvas where
  width : ℚ
  height : ℚ
deriving DecidableEq, Repr

/-- Layout configuration: canvas, illustration frame, title panel and the
four content panels (LayoutConfig in cardComposer.ts). -/
structure LayoutConfig where
  canvas : Canvas
  artworkFrame : Rect
  titleBox : BoxRect
  contentBoxes : List BoxRect
deriving DecidableEq, Repr

/-- The five scale presets (scaleConfig.ts). -/
inductive ScalePreset where
  | standard
  | moderate
  | compact
  | slim
  | mini
deriving DecidableEq, Repr

/-- SCALE_PRESETS factor table: standard 1.0, moderate 0.95, compact 0.90,
slim 0.80, mini 0.70. -/
def SCALE_PRESETS (p : ScalePreset) : ℚ :=
  match p with
  | .standard => 1
  | .moderate => 95 / 100
  | .compact => 90 / 100
  | .slim => 80 / 100
  | .mini => 70 / 100

/-- scaleRect (scaleConfig.ts): scale a rectangle about the canvas centre
and round every field with Math.round.  This is the instance of the
generic TypeScript function at plain rectangles. -/
def scaleRect (rect : Rect) (scaleFactor centerX centerY : ℚ) : Rect :=
  let rectCenterX := rect.x + rect.width / 2
  let rectCenterY := rect.y + rect.height / 2
  let offsetX := rectCenterX - centerX
  let offsetY := rectCenterY - centerY
  let scaledOffsetX := offsetX * scaleFactor
  let scaledOffsetY := offsetY * scaleFactor
  let scaledWidth := rect.width * scaleFactor
  let scaledHeight := rect.height * scaleFactor
  let newCenterX := centerX + scaledOffsetX
  let newCenterY := centerY + scaledOffsetY
  let newX := newCenterX - scaledWidth / 2
  let newY := newCenterY - scaledHeight / 2
  { x := (jsRound newX : ℚ), y := (jsRound newY : ℚ),
    width := (jsRound scaledWidth : ℚ), height := (jsRound scaledHeight : ℚ) }

/-- scaleRect at rectangles that carry an id: the spread in the source
preserves every extra field, so the id is kept unchanged. -/
def scaleBoxRect (rect : BoxRect) (scaleFactor centerX centerY : ℚ) : BoxRect :=
  let r := scaleRect rect.toRect scaleFactor centerX centerY
  { id := rect.id, x := r.x, y := r.y, width := r.width, height := r.height }

/-- applyScaleFactor (scaleConfig.ts): clamp the factor to [0.70, 1.0],
return the layout unchanged when the clamped factor is exactly 1.0, and
otherwise scale every interior rectangle about the canvas centre.  The
canvas itself is never scaled. -/
def applyScaleFactor (layout : LayoutConfig) (scaleFactor : ℚ) : LayoutConfig :=
  let clampedFactor := max (70 / 100) (min 1 scaleFactor)
  if clampedFactor = 1 then
    layout
  else
    let centerX := layout.canvas.width / 2
    let centerY := layout.canvas.height / 2
    { canvas := layout.canvas
      artworkFrame := scaleRect layout.artworkFrame clampedFactor centerX centerY
      titleBox := scaleBoxRect layout.titleBox clampedFactor centerX centerY
      contentBoxes := layout.contentBoxes.map
        (fun box => scaleBoxRect box clampedFactor centerX centerY) }

/-- applyScalePreset (scaleConfig.ts): look up the preset factor and apply
it. -/
def applyScalePreset (layout : LayoutConfig) (preset : ScalePreset) : LayoutConfig :=
  applyScaleFactor layout (SCALE_PRESETS preset)

/-- The four layout variants (cardComposer.ts LAYOUT_VARIANTS). -/
inductive LayoutVariant where
  | landscapeSquare
  | landscapeFlat
  | portraitSquare
  | portraitFlat
deriving DecidableEq, Repr

/-- LAYOUT_VARIANTS: the static catalogue of the four layouts, with the
exact pixel rectangles from cardComposer.ts. -/
def LAYOUT_VARIANTS (v : LayoutVariant) : LayoutConfig :=
  match v with
  | .landscapeSquare =>
    { canvas := { width := 1024, height := 768 }
      artworkFrame := { x := 40, y := 40, width := 390, height := 688 }
      titleBox := { id := "title", x := 480, y := 40, width := 504, height := 100 }
      contentBoxes :=
        [ { id := "content1", x := 480, y := 190, width := 227, height := 244 },
          { id := "content2", x := 757, y := 190, width := 227, height := 244 },
          { id := "content3", x := 480, y := 484, width := 227, height := 244 },
          { id := "content4", x := 757, y := 484, width := 227, height := 244 } ] }
  | .landscapeFlat =>
    { canvas := { width := 1024, height := 768 }
      artworkFrame := { x := 40, y := 40, width := 390, height := 688 }
      titleBox := { id := "title", x := 480, y := 124, width := 504, height := 100 }
      contentBoxes :=
        [ { id := "content1", x := 480, y := 274, width := 227, height := 160 },
          { id := "content2", x := 757, y := 274, width := 227, height := 160 },
          { id := "content3", x := 480, y := 484, width := 227, height := 160 },
          { id := "content4", x := 757, y := 484, width := 227, height := 160 } ] }
  | .portraitSquare =>
    { canvas := { width := 768, height := 1024 }
      artworkFrame := { x := 144, y := 40, width := 480, height := 480 }
      titleBox := { id := "title", x := 144, y := 570, width := 480, height := 70 }
      contentBoxes :=
        [ { id := "content1", x := 144, y := 690, width := 215, height := 130 },
          { id := "content2", x := 409, y := 690, width := 215, height := 130 },
          { id := "content3", x := 144, y := 870, width := 215, height := 110 },
          { id := "content4", x := 409, y := 870, width := 215, height := 110 } ] }
  | .portraitFlat =>
    { canvas := { width := 768, height := 1024 }
      artworkFrame := { x := 144, y := 40, width := 480, height := 480 }
      titleBox := { id := "title", x := 144, y := 570, width := 480, height := 70 }
      contentBoxes :=
        [ { id := "content1", x := 144, y := 690, width := 215, height := 90 },
          { id := "content2", x := 409, y := 690, width := 215, height := 90 },
          { id := "content3", x := 144, y := 830, width := 215, height := 90 },
          { id := "content4", x := 409, y := 830, width := 215, height := 90 } ] }

/-- C1: Applying the standard scale preset is a no-op: applyScaleFactor
with factor 1.0 (equivalently applyScalePreset with the standard preset)
returns the layout itself — the identical, un-recomputed rects — for every
layout, in particular for all 4 catalogue variants. -/
theorem applyScaleFactor_one_identity :
    (∀ layout : LayoutConfig, applyScaleFactor layout 1 = layout) ∧
    (∀ layout : LayoutConfig, applyScalePreset layout ScalePreset.standard = layout) ∧
    (∀ v : LayoutVariant,
      applyScalePreset (LAYOUT_VARIANTS v) ScalePreset.standard = LAYOUT_VARIANTS v) := by
  have h1 : ∀ layout : LayoutConfig, applyScaleFactor layout 1 = layout := by
    intro layout
    unfold applyScaleFactor
    rw [if_pos]
    norm_num
  exact ⟨h1, fun layout => h1 layout, fun v => h1 (LAYOUT_VARIANTS v)⟩

/-- Outer glow configuration (borderRenderer OuterGlowConfig): blur radius,
colour, opacity, spread distance. -/
structure OuterGlowConfig where
  blur : ℚ
  color : String
  opacity : ℚ
  spread : ℚ
deriving DecidableEq, Repr

/-- The four glow intensities. -/
inductive GlowIntensity where
  | subtle
  | medium
  | strong
  | none
deriving DecidableEq, Repr

/-- GLOW_PRESETS table from borderRenderer. -/
def GLOW_PRESETS (i : GlowIntensity) : OuterGlowConfig :=
  match i with
  | .subtle => { blur := 4, opacity := 15 / 100, spread := 2, color := "#FFD700" }
  | .medium => { blur := 6, opacity := 22 / 100, spread := 3, color := "#FFD700" }
  | .strong => { blur := 8, opacity := 30 / 100, spread := 4, color := "#FFD700" }
  | .none => { blur := 0, opacity := 0, spread := 0, color := "#FFD700" }

/-- DEFAULT_GLOW_CONFIG = GLOW_PRESETS.medium. -/
def DEFAULT_GLOW_CONFIG : OuterGlowConfig := GLOW_PRESETS .medium

/-- getGlowConfig: the table is total, so the fallback to the default never
fires for enum members. -/
def getGlowConfig (intensity : GlowIntensity) : OuterGlowConfig :=
  GLOW_PRESETS intensity

/-- Double-line border style (DoubleLineBorderStyle). -/
structure DoubleLineBorderStyle where
  outerWidth : ℚ
  innerWidth : ℚ
  gap : ℚ
  outerGradient : List String
  innerStrokeColor : String
  innerStrokeOpacity : ℚ
deriving DecidableEq, Repr

/-- ENHANCED_ARTWORK_BORDER: 5 / 1.5 / 1.5 ring widths. -/
def ENHANCED_ARTWORK_BORDER : DoubleLineBorderStyle :=
  { outerWidth := 5, innerWidth := 3 / 2, gap := 3 / 2
    outerGradient := ["#FFE4A0", "#D4AF37", "#B8860B", "#D4AF37", "#FFE4A0"]
    innerStrokeColor := "#000000", innerStrokeOpacity := 40 / 100 }

/-- ENHANCED_TEXTBOX_BORDER: 4 / 1 / 1 ring widths. -/
def ENHANCED_TEXTBOX_BORDER : DoubleLineBorderStyle :=
  { outerWidth := 4, innerWidth := 1, gap := 1
    outerGradient := ["#B8A080", "#8B7355", "#6B5335", "#8B7355", "#B8A080"]
    innerStrokeColor := "#000000", innerStrokeOpacity := 35 / 100 }

/-- MIN_BORDER_GAP = 2px. -/
def MIN_BORDER_GAP : ℚ := 2

/-- BorderDimensions: per-edge components of a double-line border footprint
(outer stroke, gap, inner stroke, inner hairline stroke, glow padding). -/
structure BorderDimensions where
  outerWidth : ℚ
  gap : ℚ
  innerWidth : ℚ
  innerStroke : ℚ
  glowPadding : ℚ
deriving DecidableEq, Repr

/-- calculateTotalBorderSpace: sum of all five per-edge components. -/
def calculateTotalBorderSpace (border : BorderDimensions) : ℚ :=
  border.outerWidth + border.gap + border.innerWidth + border.innerStroke +
    border.glowPadding

/-- Glow padding as computed throughout borderRenderer:
ceil (blur + spread) when the glow opacity is positive, otherwise 0. -/
def glowPaddingOf (glow : OuterGlowConfig) : ℚ :=
  if 0 < glow.opacity then (⌈glow.blur + glow.spread⌉ : ℚ) else 0

/-- getArtworkBorderDimensions: the artwork-frame border dimensions
(5 + 1.5 + 1.5 + 2 plus glow padding); an omitted glow config defaults to
DEFAULT_GLOW_CONFIG. -/
def getArtworkBorderDimensions (glowConfig : Option OuterGlowConfig) : BorderDimensions :=
  let glow := glowConfig.getD DEFAULT_GLOW_CONFIG
  { outerWidth := ENHANCED_ARTWORK_BORDER.outerWidth
    gap := ENHANCED_ARTWORK_BORDER.gap
    innerWidth := ENHANCED_ARTWORK_BORDER.innerWidth
    innerStroke := 2
    glowPadding := glowPaddingOf glow }

/-- getTextBoxBorderDimensions: the text-panel border dimensions
(4 + 1 + 1 + 2 plus glow padding). -/
def getTextBoxBorderDimensions (glowConfig : Option OuterGlowConfig) : BorderDimensions :=
  let glow := glowConfig.getD DEFAULT_GLOW_CONFIG
  { outerWidth := ENHANCED_TEXTBOX_BORDER.outerWidth
    gap := ENHANCED_TEXTBOX_BORDER.gap
    innerWidth := ENHANCED_TEXTBOX_BORDER.innerWidth
    innerStroke := 2
    glowPadding := glowPaddingOf glow }

/-- The geometric result of a border-layer render: the dimensions of the
rasterised SVG buffer and the placement position returned alongside it. -/
structure PlacedLayer where
  width : ℚ
  height : ℚ
  x : ℚ
  y : ℚ
deriving DecidableEq, Repr

/-- renderDoubleLineArtworkBorder (borderRenderer): with the default style
(customStyle omitted, as in composeCard) the total buffer size is the frame
size plus twice (outerWidth + gap + innerWidth + 2) plus twice the glow
padding, and the placement is the frame top-left shifted by minus that
per-edge padding. -/
def renderDoubleLineArtworkBorder (frame : Rect)
    (glowConfig : Option OuterGlowConfig) : PlacedLayer :=
  let style := ENHANCED_ARTWORK_BORDER
  let glow := glowConfig.getD DEFAULT_GLOW_CONFIG
  let totalBorderWidth := style.outerWidth + style.gap + style.innerWidth + 2
  let glowPadding := glowPaddingOf glow
  { width := frame.width + totalBorderWidth * 2 + glowPadding * 2
    height := frame.height + totalBorderWidth * 2 + glowPadding * 2
    x := frame.x - totalBorderWidth - glowPadding
    y := frame.y - totalBorderWidth - glowPadding }

/-- renderDoubleLineTextBoxBorder (borderRenderer): same footprint
arithmetic with the text-box style. -/
def renderDoubleLineTextBoxBorder (frame : Rect)
    (glowConfig : Option OuterGlowConfig) : PlacedLayer :=
  let style := ENHANCED_TEXTBOX_BORDER
  let glow := glowConfig.getD DEFAULT_GLOW_CONFIG
  let totalBorderWidth := style.outerWidth + style.gap + style.innerWidth + 2
  let glowPadding := glowPaddingOf glow
  { width := frame.width + totalBorderWidth * 2 + glowPadding * 2
    height := frame.height + totalBorderWidth * 2 + glowPadding * 2
    x := frame.x - totalBorderWidth - glowPadding
    y := frame.y - totalBorderWidth - glowPadding }

/-- C2: For every input rect and glow configuration, both border layer
generators return a buffer of size rect + 2 * (outerWidth + gap +
innerWidth + 2) + 2 * glowPadding with placement rect.topLeft minus the
per-edge padding, where glowPadding is ceil (blur + spread) for positive
glow opacity and 0 otherwise; that per-edge padding equals
calculateTotalBorderSpace of the matching BorderDimensions, so subtracting
it from the placed box reproduces the original rect exactly. -/
theorem doubleLineBorder_footprint_roundTrip
    (frame : Rect) (glowConfig : Option OuterGlowConfig) :
    (renderDoubleLineArtworkBorder frame glowConfig).width =
        frame.width +
          2 * (ENHANCED_ARTWORK_BORDER.outerWidth + ENHANCED_ARTWORK_BORDER.gap +
            ENHANCED_ARTWORK_BORDER.innerWidth + 2) +
          2 * (if 0 < (glowConfig.getD DEFAULT_GLOW_CONFIG).opacity then
              ((⌈(glowConfig.getD DEFAULT_GLOW_CONFIG).blur +
                  (glowConfig.getD DEFAULT_GLOW_CONFIG).spread⌉ : ℤ) : ℚ)
            else 0) ∧
    (renderDoubleLineArtworkBorder frame glowConfig).height =
        frame.height +
          2 * (ENHANCED_ARTWORK_BORDER.outerWidth + ENHANCED_ARTWORK_BORDER.gap +
            ENHANCED_ARTWORK_BORDER.innerWidth + 2) +
          2 * glowPaddingOf (glowConfig.getD DEFAULT_GLOW_CONFIG) ∧
    (renderDoubleLineArtworkBorder frame glowConfig).x =
        frame.x - calculateTotalBorderSpace (getArtworkBorderDimensions glowConfig) ∧
    (renderDoubleLineArtworkBorder frame glowConfig).y =
        frame.y - calculateTotalBorderSpace (getArtworkBorderDimensions glowConfig) ∧
    (renderDoubleLineArtworkBorder frame glowConfig).x +
        calculateTotalBorderSpace (getArtworkBorderDimensions glowConfig) = frame.x ∧
    (renderDoubleLineArtworkBorder frame glowConfig).y +
        calculateTotalBorderSpace (getArtworkBorderDimensions glowConfig) = frame.y ∧
    (renderDoubleLineArtworkBorder frame glowConfig).width -
        2 * calculateTotalBorderSpace (getArtworkBorderDimensions glowConfig) =
        frame.width ∧
    (renderDoubleLineArtworkBorder frame glowConfig).height -
        2 * calculateTotalBorderSpace (getArtworkBorderDimensions glowConfig) =
        frame.height ∧
    (renderDoubleLineTextBoxBorder frame glowConfig).width =
        frame.width +
          2 * (ENHANCED_TEXTBOX_BORDER.outerWidth + ENHANCED_TEXTBOX_BORDER.gap +
            ENHANCED_TEXTBOX_BORDER.innerWidth + 2) +
          2 * glowPaddingOf (glowConfig.getD DEFAULT_GLOW_CONFIG) ∧
    (renderDoubleLineTextBoxBorder frame glowConfig).x =
        frame.x - calculateTotalBorderSpace (getTextBoxBorderDimensions glowConfig) ∧
    (renderDoubleLineTextBoxBorder frame glowConfig).y =
        frame.y - calculateTotalBorderSpace (getTextBoxBorderDimensions glowConfig) ∧
    (renderDoubleLineTextBoxBorder frame glowConfig).width -
        2 * calculateTotalBorderSpace (getTextBoxBorderDimensions glowConfig) =
        frame.width ∧
    (renderDoubleLineTextBoxBorder frame glowConfig).height -
        2 * calculateTotalBorderSpace (getTextBoxBorderDimensions glowConfig) =
        frame.height := by
  refine ⟨?_, ?_, ?_, ?_, ?_, ?_, ?_, ?_, ?_, ?_, ?_, ?_, ?_⟩ <;>
    simp only [renderDoubleLineArtworkBorder, renderDoubleLineTextBoxBorder,
      calculateTotalBorderSpace, getArtworkBorderDimensions,
      getTextBoxBorderDimensions, glowPaddingOf, ENHANCED_ARTWORK_BORDER,
      ENHANCED_TEXTBOX_BORDER] <;> ring

/-- validateBorderGap (borderRenderer): expand both frames outward by their
total border space, classify the relative position (diagonal, vertically
adjacent, horizontally adjacent, overlapping) from axis overlap of the
expanded boxes, and require the along-axis gap to be at least minGap for
the adjacent cases. -/
def validateBorderGap (frame1 frame2 : Rect)
    (border1Dimensions border2Dimensions : BorderDimensions)
    (minGap : ℚ) : Bool :=
  let border1Space := calculateTotalBorderSpace border1Dimensions
  let border2Space := calculateTotalBorderSpace border2Dimensions
  let frame1Left := frame1.x - border1Space
  let frame1Right := frame1.x + frame1.width + border1Space
  let frame1Top := frame1.y - border1Space
  let frame1Bottom := frame1.y + frame1.height + border1Space
  let frame2Left := frame2.x - border2Space
  let frame2Right := frame2.x + frame2.width + border2Space
  let frame2Top := frame2.y - border2Space
  let frame2Bottom := frame2.y + frame2.height + border2Space
  let horizontalGap := min |frame1Right - frame2Left| |frame2Right - frame1Left|
  let verticalGap := min |frame1Bottom - frame2Top| |frame2Bottom - frame1Top|
  let horizontalOverlap :=
    !(decide (frame1Right < frame2Left) || decide (frame2Right < frame1Left))
  let verticalOverlap :=
    !(decide (frame1Bottom < frame2Top) || decide (frame2Bottom < frame1Top))
  if !horizontalOverlap && !verticalOverlap then
    true
  else if horizontalOverlap && !verticalOverlap then
    decide (minGap ≤ verticalGap)
  else if !horizontalOverlap && verticalOverlap then
    decide (minGap ≤ horizontalGap)
  else
    false

/-- validateBorderWithinCanvas (borderRenderer): the frame expanded by its
total border space must lie inside [0, canvasWidth] x [0, canvasHeight]. -/
def validateBorderWithinCanvas (frame : Rect)
    (borderDimensions : BorderDimensions)
    (canvasWidth canvasHeight : ℚ) : Bool :=
  let borderSpace := calculateTotalBorderSpace borderDimensions
  let left := frame.x - borderSpace
  let right := frame.x + frame.width + borderSpace
  let top := frame.y - borderSpace
  let bottom := frame.y + frame.height + borderSpace
  decide (0 ≤ left) && decide (right ≤ canvasWidth) &&
    decide (0 ≤ top) && decide (bottom ≤ canvasHeight)

/-- C3: Behaviour of validateBorderGap after expanding both rects by their
calculateTotalBorderSpace: expanded boxes strictly separated on both axes
(diagonal placement) always pass regardless of minGap; expanded boxes that
truly overlap on both axes always fail; and for boxes adjacent along
exactly one axis (expanded boxes strictly separated on that axis only,
with nonnegative expanded extents) the check passes exactly when the
along-axis separation is at least minGap — so separation exactly minGap
passes and separation minGap - 1 fails. -/
theorem validateBorderGap_boundary (frame1 frame2 : Rect)
    (d1 d2 : BorderDimensions) (minGap : ℚ) :
    ((frame1.x + frame1.width + calculateTotalBorderSpace d1 <
        frame2.x - calculateTotalBorderSpace d2 ∨
      frame2.x + frame2.width + calculateTotalBorderSpace d2 <
        frame1.x - calculateTotalBorderSpace d1) →
     (frame1.y + frame1.height + calculateTotalBorderSpace d1 <
        frame2.y - calculateTotalBorderSpace d2 ∨
      frame2.y + frame2.height + calculateTotalBorderSpace d2 <
        frame1.y - calculateTotalBorderSpace d1) →
     validateBorderGap frame1 frame2 d1 d2 minGap = true) ∧
    ((frame2.x - calculateTotalBorderSpace d2 <
        frame1.x + frame1.width + calculateTotalBorderSpace d1) →
     (frame1.x - calculateTotalBorderSpace d1 <
        frame2.x + frame2.width + calculateTotalBorderSpace d2) →
     (frame2.y - calculateTotalBorderSpace d2 <
        frame1.y + frame1.height + calculateTotalBorderSpace d1) →
     (frame1.y - calculateTotalBorderSpace d1 <
        frame2.y + frame2.height + calculateTotalBorderSpace d2) →
     validateBorderGap frame1 frame2 d1 d2 minGap = false) ∧
    (0 ≤ frame1.width + 2 * calculateTotalBorderSpace d1 →
     0 ≤ frame2.width + 2 * calculateTotalBorderSpace d2 →
     frame1.x + frame1.width + calculateTotalBorderSpace d1 <
        frame2.x - calculateTotalBorderSpace d2 →
     ¬(frame1.y + frame1.height + calculateTotalBorderSpace d1 <
          frame2.y - calculateTotalBorderSpace d2 ∨
       frame2.y + frame2.height + calculateTotalBorderSpace d2 <
          frame1.y - calculateTotalBorderSpace d1) →
     (validateBorderGap frame1 frame2 d1 d2 minGap = true ↔
       minGap ≤ (frame2.x - calculateTotalBorderSpace d2) -
         (frame1.x + frame1.width + calculateTotalBorderSpace d1))) ∧
    (0 ≤ frame1.height + 2 * calculateTotalBorderSpace d1 →
     0 ≤ frame2.height + 2 * calculateTotalBorderSpace d2 →
     frame1.y + frame1.height + calculateTotalBorderSpace d1 <
        frame2.y - calculateTotalBorderSpace d2 →
     ¬(frame1.x + frame1.width + calculateTotalBorderSpace d1 <
          frame2.x - calculateTotalBorderSpace d2 ∨
       frame2.x + frame2.width + calculateTotalBorderSpace d2 <
          frame1.x - calculateTotalBorderSpace d1) →
     (validateBorderGap frame1 frame2 d1 d2 minGap = true ↔
       minGap ≤ (frame2.y - calculateTotalBorderSpace d2) -
         (frame1.y + frame1.height + calculateTotalBorderSpace d1))) := by
  set s1 := calculateTotalBorderSpace d1 with hs1
  set s2 := calculateTotalBorderSpace d2 with hs2
  refine ⟨?_, ?_, ?_, ?_⟩
  · intro hx hy
    simp only [validateBorderGap, ← hs1, ← hs2]
    have hxb : (decide (frame1.x + frame1.width + s1 < frame2.x - s2) ||
        decide (frame2.x + frame2.width + s2 < frame1.x - s1)) = true := by
      rcases hx with h | h <;> simp [h]
    have hyb : (decide (frame1.y + frame1.height + s1 < frame2.y - s2) ||
        decide (frame2.y + frame2.height + s2 < frame1.y - s1)) = true := by
      rcases hy with h | h <;> simp [h]
    simp [hxb, hyb]
  · intro h1 h2 h3 h4
    simp only [validateBorderGap, ← hs1, ← hs2]
    have hxb : (decide (frame1.x + frame1.width + s1 < frame2.x - s2) ||
        decide (frame2.x + frame2.width + s2 < frame1.x - s1)) = false := by
      simp [not_lt.mpr h1.le, not_lt.mpr h2.le]
    have hyb : (decide (frame1.y + frame1.height + s1 < frame2.y - s2) ||
        decide (frame2.y + frame2.height + s2 < frame1.y - s1)) = false := by
      simp [not_lt.mpr h3.le, not_lt.mpr h4.le]
    simp [hxb, hyb]
  · intro hw1 hw2 hx hy
    simp only [validateBorderGap, ← hs1, ← hs2]
    have hxb : (decide (frame1.x + frame1.width + s1 < frame2.x - s2) ||
        decide (frame2.x + frame2.width + s2 < frame1.x - s1)) = true := by
      simp [hx]
    have hyb : (decide (frame1.y + frame1.height + s1 < frame2.y - s2) ||
        decide (frame2.y + frame2.height + s2 < frame1.y - s1)) = false := by
      push_neg at hy
      simp only [Bool.or_eq_false_iff, decide_eq_false_iff_not, not_lt]
      exact ⟨hy.1, hy.2⟩
    have habs1 : |frame1.x + frame1.width + s1 - (frame2.x - s2)| =
        (frame2.x - s2) - (frame1.x + frame1.width + s1) := by
      rw [abs_sub_comm]
      exact abs_of_nonneg (by linarith)
    have habs2 : |frame2.x + frame2.width + s2 - (frame1.x - s1)| =
        (frame2.x + frame2.width + s2) - (frame1.x - s1) := by
      exact abs_of_nonneg (by linarith)
    have hmin : min |frame1.x + frame1.width + s1 - (frame2.x - s2)|
        |frame2.x + frame2.width + s2 - (frame1.x - s1)| =
        (frame2.x - s2) - (frame1.x + frame1.width + s1) := by
      rw [habs1, habs2]
      exact min_eq_left (by linarith)
    simp [hxb, hyb, hmin]
  · intro hh1 hh2 hy hx
    simp only [validateBorderGap, ← hs1, ← hs2]
    have hyb : (decide (frame1.y + frame1.height + s1 < frame2.y - s2) ||
        decide (frame2.y + frame2.height + s2 < frame1.y - s1)) = true := by
      simp [hy]
    have hxb : (decide (frame1.x + frame1.width + s1 < frame2.x - s2) ||
        decide (frame2.x + frame2.width + s2 < frame1.x - s1)) = false := by
      push_neg at hx
      simp only [Bool.or_eq_false_iff, decide_eq_false_iff_not, not_lt]
      exact ⟨hx.1, hx.2⟩
    have habs1 : |frame1.y + frame1.height + s1 - (frame2.y - s2)| =
        (frame2.y - s2) - (frame1.y + frame1.height + s1) := by
      rw [abs_sub_comm]
      exact abs_of_nonneg (by linarith)
    have habs2 : |frame2.y + frame2.height + s2 - (frame1.y - s1)| =
        (frame2.y + frame2.height + s2) - (frame1.y - s1) := by
      exact abs_of_nonneg (by linarith)
    have hmin : min |frame1.y + frame1.height + s1 - (frame2.y - s2)|
        |frame2.y + frame2.height + s2 - (frame1.y - s1)| =
        (frame2.y - s2) - (frame1.y + frame1.height + s1) := by
      rw [habs1, habs2]
      exact min_eq_left (by linarith)
    simp [hxb, hyb, hmin]

/-- Witness for C3: two text-panel-like boxes horizontally adjacent at
separation exactly MIN_BORDER_GAP between their expanded borders pass, the
same boxes one pixel closer fail, and diagonal boxes with sub-minGap axis
gaps pass.  All hypotheses of validateBorderGap_boundary are discharged at
these concrete inputs. -/
theorem validateBorderGap_boundary_witness :
    validateBorderGap ⟨0, 0, 100, 50⟩ ⟨118, 0, 100, 50⟩
        ⟨4, 1, 1, 2, 0⟩ ⟨4, 1, 1, 2, 0⟩ 2 = true ∧
    validateBorderGap ⟨0, 0, 100, 50⟩ ⟨117, 0, 100, 50⟩
        ⟨4, 1, 1, 2, 0⟩ ⟨4, 1, 1, 2, 0⟩ 2 = false ∧
    validateBorderGap ⟨0, 0, 100, 50⟩ ⟨117, 67, 100, 50⟩
        ⟨4, 1, 1, 2, 0⟩ ⟨4, 1, 1, 2, 0⟩ 2 = true := by
  refine ⟨?_, ?_, ?_⟩
  · exact ((validateBorderGap_boundary ⟨0, 0, 100, 50⟩ ⟨118, 0, 100, 50⟩
      ⟨4, 1, 1, 2, 0⟩ ⟨4, 1, 1, 2, 0⟩ 2).2.2.1 (by norm_num [calculateTotalBorderSpace])
      (by norm_num [calculateTotalBorderSpace])
      (by norm_num [calculateTotalBorderSpace])
      (by norm_num [calculateTotalBorderSpace])).mpr
      (by norm_num [calculateTotalBorderSpace])
  · have h := (validateBorderGap_boundary ⟨0, 0, 100, 50⟩ ⟨117, 0, 100, 50⟩
      ⟨4, 1, 1, 2, 0⟩ ⟨4, 1, 1, 2, 0⟩ 2).2.2.1 (by norm_num [calculateTotalBorderSpace])
      (by norm_num [calculateTotalBorderSpace])
      (by norm_num [calculateTotalBorderSpace])
      (by norm_num [calculateTotalBorderSpace])
    rcases hb : validateBorderGap ⟨0, 0, 100, 50⟩ ⟨117, 0, 100, 50⟩
        ⟨4, 1, 1, 2, 0⟩ ⟨4, 1, 1, 2, 0⟩ 2 with _ | _
    · rfl
    · exact absurd (h.mp hb) (by norm_num [calculateTotalBorderSpace])
  · exact (validateBorderGap_boundary ⟨0, 0, 100, 50⟩ ⟨117, 67, 100, 50⟩
      ⟨4, 1, 1, 2, 0⟩ ⟨4, 1, 1, 2, 0⟩ 2).1
      (by norm_num [calculateTotalBorderSpace])
      (by norm_num [calculateTotalBorderSpace])

/-- getAllTextBoxes (cardComposer.ts): title box followed by the content
boxes. -/
def getAllTextBoxes (layout : LayoutConfig) : List BoxRect :=
  layout.titleBox :: layout.contentBoxes

/-- The six rectangles of a layout the scale claims range over: the
illustration frame, the title panel and the four content panels. -/
def layoutRects (layout : LayoutConfig) : List Rect :=
  layout.artworkFrame :: (getAllTextBoxes layout).map BoxRect.toRect

/-- The preset chain in increasing-factor order. -/
def presetOrder : List ScalePreset :=
  [.mini, .slim, .compact, .moderate, .standard]

/-- Widths of all six rects of a variant after applying a scale preset. -/
def scaledWidths (v : LayoutVariant) (p : ScalePreset) : List ℚ :=
  (layoutRects (applyScalePreset (LAYOUT_VARIANTS v) p)).map Rect.width

/-- Pointwise strict comparison of two width lists. -/
def widthsLt (ws1 ws2 : List ℚ) : Bool :=
  (ws1.zip ws2).all (fun ab => decide (ab.1 < ab.2))

/-- Rect fully inside the canvas: nonnegative corner and far edges within
the canvas dimensions. -/
def rectInsideCanvas (c : Canvas) (r : Rect) : Bool :=
  decide (0 ≤ r.x) && decide (0 ≤ r.y) &&
    decide (r.x + r.width ≤ c.width) && decide (r.y + r.height ≤ c.height)

/-- All six rects of a scaled variant lie inside the (unchanged) canvas. -/
def scaledInsideCanvas (v : LayoutVariant) (p : ScalePreset) : Bool :=
  (layoutRects (applyScalePreset (LAYOUT_VARIANTS v) p)).all
    (rectInsideCanvas (LAYOUT_VARIANTS v).canvas)

set_option maxHeartbeats 3200000 in
/-- C5: For each catalogue variant, the widths of all six rects are
strictly increasing along mini < slim < compact < moderate < standard, and
for every preset each scaled rect lies fully inside the unchanged canvas.
The canvas of the scaled layout is also literally unchanged. -/
theorem scalePreset_width_monotone_inCanvas :
    ∀ v : LayoutVariant,
      (widthsLt (scaledWidths v .mini) (scaledWidths v .slim) &&
       widthsLt (scaledWidths v .slim) (scaledWidths v .compact) &&
       widthsLt (scaledWidths v .compact) (scaledWidths v .moderate) &&
       widthsLt (scaledWidths v .moderate) (scaledWidths v .standard)) = true ∧
      (presetOrder.all (scaledInsideCanvas v)) = true ∧
      (presetOrder.all (fun p =>
        decide ((applyScalePreset (LAYOUT_VARIANTS v) p).canvas =
          (LAYOUT_VARIANTS v).canvas))) = true := by
  intro v
  cases v <;>
    refine ⟨?_, ?_, ?_⟩ <;>
    norm_num [widthsLt, scaledWidths, layoutRects, getAllTextBoxes,
      scaledInsideCanvas, rectInsideCanvas, presetOrder, applyScalePreset,
      applyScaleFactor, SCALE_PRESETS, LAYOUT_VARIANTS, scaleRect,
      scaleBoxRect, BoxRect.toRect, jsRound, List.zip, List.all]

/-- Legacy 2-way layout mode. -/
inductive LayoutMode where
  | landscape
  | portrait
deriving DecidableEq, Repr

/-- Crop anchors for cover-fitting the illustration. -/
inductive CropAnchor where
  | top
  | center
  | bottom
deriving DecidableEq, Repr

/-- LANDSCAPE_LAYOUT: backward-compatible alias of landscape-square. -/
def LANDSCAPE_LAYOUT : LayoutConfig := LAYOUT_VARIANTS .landscapeSquare

/-- PORTRAIT_LAYOUT: backward-compatible alias of portrait-square. -/
def PORTRAIT_LAYOUT : LayoutConfig := LAYOUT_VARIANTS .portraitSquare

/-- getLayoutConfig (cardComposer.ts): legacy mode to layout. -/
def getLayoutConfig (mode : LayoutMode) : LayoutConfig :=
  if mode = .landscape then LANDSCAPE_LAYOUT else PORTRAIT_LAYOUT

/-- getLayoutConfigByVariant (cardComposer.ts). -/
def getLayoutConfigByVariant (variant : LayoutVariant) : LayoutConfig :=
  LAYOUT_VARIANTS variant

/-- getLayoutModeFromVariant: variants whose id starts with landscape map
to landscape mode. -/
def getLayoutModeFromVariant (variant : LayoutVariant) : LayoutMode :=
  match variant with
  | .landscapeSquare | .landscapeFlat => .landscape
  | .portraitSquare | .portraitFlat => .portrait

/-- getDefaultCropAnchor: portrait defaults to top, landscape to center. -/
def getDefaultCropAnchor (mode : LayoutMode) : CropAnchor :=
  if mode = .portrait then .top else .center

/-- getCropPosition: map the crop anchor to the sharp gravity string. -/
def getCropPosition (anchor : CropAnchor) : String :=
  match anchor with
  | .top => "north"
  | .center => "centre"
  | .bottom => "south"

/-- Result record of validateLayoutBorders: overall validity flag plus the
accumulated error strings. -/
structure ValidationResult where
  valid : Bool
  errors : List String
deriving DecidableEq, Repr

/-- Gap errors between distinct content boxes (the source loops i < j).
The error strings abbreviate the Chinese messages of the source. -/
def contentPairGapErrors (boxes : List (ℕ × BoxRect))
    (dims : BorderDimensions) (minGap : ℚ) : List String :=
  boxes.flatMap (fun p =>
    boxes.filterMap (fun q =>
      if p.1 < q.1 then
        if validateBorderGap p.2.toRect q.2.toRect dims dims minGap then
          none
        else
          some ("content box " ++ toString (p.1 + 1) ++ " and content box " ++
            toString (q.1 + 1) ++ " border gap below minimum")
      else none))

/-- validateLayoutBorders (cardComposer.ts): canvas-bounds checks for the
artwork frame, title box and content boxes, then gap checks between the
artwork frame and the title box, the title box and every content box, and
every pair of content boxes, all at MIN_BORDER_GAP.  The result is
advisory: valid is true exactly when the error list is empty. -/
def validateLayoutBorders (layout : LayoutConfig)
    (glowConfig : Option OuterGlowConfig) : ValidationResult :=
  let artworkBorderDims := getArtworkBorderDimensions glowConfig
  let textBoxBorderDims := getTextBoxBorderDimensions glowConfig
  let e1 :=
    if validateBorderWithinCanvas layout.artworkFrame artworkBorderDims
        layout.canvas.width layout.canvas.height then ([] : List String)
    else ["artwork frame border exceeds canvas bounds"]
  let e2 :=
    if validateBorderWithinCanvas layout.titleBox.toRect textBoxBorderDims
        layout.canvas.width layout.canvas.height then ([] : List String)
    else ["title box border exceeds canvas bounds"]
  let e3 := layout.contentBoxes.enum.filterMap (fun p =>
    if validateBorderWithinCanvas p.2.toRect textBoxBorderDims
        layout.canvas.width layout.canvas.height then none
    else some ("content box " ++ toString (p.1 + 1) ++
      " border exceeds canvas bounds"))
  let e4 :=
    if validateBorderGap layout.artworkFrame layout.titleBox.toRect
        artworkBorderDims textBoxBorderDims MIN_BORDER_GAP then ([] : List String)
    else ["artwork frame and title box border gap below minimum"]
  let e5 := layout.contentBoxes.enum.filterMap (fun p =>
    if validateBorderGap layout.titleBox.toRect p.2.toRect
        textBoxBorderDims textBoxBorderDims MIN_BORDER_GAP then none
    else some ("title box and content box " ++ toString (p.1 + 1) ++
      " border gap below minimum"))
  let e6 := contentPairGapErrors layout.contentBoxes.enum textBoxBorderDims
    MIN_BORDER_GAP
  let errors := e1 ++ e2 ++ e3 ++ e4 ++ e5 ++ e6
  { valid := errors.isEmpty, errors := errors }

/-- Per-request text content for one panel (TextBoxConfig). -/
structure TextBoxConfig where
  id : String
  text : String
deriving DecidableEq, Repr

/-- Border presets gold / silver / bronze. -/
inductive BorderPreset where
  | gold
  | silver
  | bronze
deriving DecidableEq, Repr

/-- Options record of composeCard.  Image buffers are modelled by their
byte length together with the decoded metadata dimensions (none when the
buffer cannot be decoded); style enumerations that only affect SVG colour
content are carried but have no geometric effect. -/
structure ComposeCardOptions where
  backgroundLen : ℕ
  artworkLen : ℕ
  artworkMeta : Option (ℕ × ℕ)
  textBoxes : List TextBoxConfig
  textBoxColorId : Option String
  layoutMode : LayoutMode
  layoutVariant : Option LayoutVariant
  borderPreset : Option BorderPreset
  glowIntensity : Option GlowIntensity
  scalePreset : Option ScalePreset
  cropAnchor : Option CropAnchor
deriving DecidableEq, Repr

/-- A top-left placement of a composited layer. -/
structure Placement where
  left : ℚ
  top : ℚ
deriving DecidableEq, Repr

/-- One text panel: its background layer placement and its border layer
placement (both always rendered). -/
structure PanelLayer where
  box : BoxRect
  background : Placement
  border : Placement
deriving DecidableEq, Repr

/-- One rendered text-glyph layer. -/
structure TextLayer where
  boxId : String
  left : ℚ
  top : ℚ
deriving DecidableEq, Repr

/-- The geometric outcome of composeCard: the resolved and scaled layout,
the effective crop anchor, the advisory validation errors (logged as a
warning by the source), and the placements of every composited layer in
pipeline order. -/
structure ComposeResult where
  layout : LayoutConfig
  effectiveCropAnchor : CropAnchor
  validationErrors : List String
  artwork : Placement
  artworkBorder : Placement
  panels : List PanelLayer
  texts : List TextLayer
deriving DecidableEq, Repr

/-- Layout resolution: an explicit variant takes precedence over the
legacy mode. -/
def resolveBaseLayout (opts : ComposeCardOptions) : LayoutConfig :=
  match opts.layoutVariant with
  | some v => getLayoutConfigByVariant v
  | none => getLayoutConfig opts.layoutMode

/-- Effective layout mode used for crop-anchor defaulting. -/
def effectiveLayoutModeOf (opts : ComposeCardOptions) : LayoutMode :=
  match opts.layoutVariant with
  | some v => getLayoutModeFromVariant v
  | none => opts.layoutMode

/-- The scale preset is applied only when present and different from
standard (composeCard lines 560-563). -/
def resolvedScaledLayout (opts : ComposeCardOptions) : LayoutConfig :=
  match opts.scalePreset with
  | some p => if p ≠ .standard then applyScalePreset (resolveBaseLayout opts) p
              else resolveBaseLayout opts
  | none => resolveBaseLayout opts

/-- renderTextBoxBackgrounds (cardComposer.ts), geometric content: for
every layout panel — independent of the supplied text entries — a
background layer at the panel origin and a double-line border layer at its
padded position, clamped to the canvas at zero. -/
def panelLayersOf (layout : LayoutConfig)
    (glowConfig : Option OuterGlowConfig) : List PanelLayer :=
  (getAllTextBoxes layout).map (fun box =>
    let border := renderDoubleLineTextBoxBorder box.toRect glowConfig
    { box := box
      background := { left := box.x, top := box.y }
      border := { left := max 0 border.x, top := max 0 border.y } })

/-- JavaScript String.prototype.trim, modelled structurally on the char
list: drop whitespace from both ends. -/
def jsTrim (s : String) : String :=
  String.mk (((s.data.dropWhile Char.isWhitespace).reverse.dropWhile
    Char.isWhitespace).reverse)

/-- renderTextContent (cardComposer.ts), geometric content: a glyph layer
for each layout panel whose matching text entry exists and is not
whitespace-only; panels with a missing entry get the empty string and are
skipped. -/
def textLayersOf (layout : LayoutConfig)
    (textBoxes : List TextBoxConfig) : List TextLayer :=
  (getAllTextBoxes layout).filterMap (fun box =>
    let text := ((textBoxes.find? (fun tb => tb.id == box.id)).map
      TextBoxConfig.text).getD ""
    if jsTrim text = "" then none
    else some { boxId := box.id, left := box.x, top := box.y })

/-- composeCard (cardComposer.ts), geometric model: resolve and scale the
layout, compute the advisory border validation (the source only logs a
warning from it), abort with an error for an empty artwork buffer or
unreadable artwork metadata, and otherwise return the full layer plan:
background canvas fill, artwork at the frame origin, artwork border at its
clamped padded position, panel background and border layers, and text
glyph layers. -/
def composeCard (opts : ComposeCardOptions) : Except String ComposeResult :=
  let layout := resolvedScaledLayout opts
  let effectiveCropAnchor :=
    opts.cropAnchor.getD (getDefaultCropAnchor (effectiveLayoutModeOf opts))
  let glowConfig := opts.glowIntensity.map getGlowConfig
  let layoutValidation := validateLayoutBorders layout glowConfig
  if opts.artworkLen = 0 then
    Except.error "artwork image data is empty"
  else
    match opts.artworkMeta with
    | none => Except.error "artwork metadata decode failed"
    | some (w, h) =>
      if w = 0 ∨ h = 0 then
        Except.error "cannot read artwork image dimensions"
      else
        let frame := layout.artworkFrame
        let artworkBorder := renderDoubleLineArtworkBorder frame glowConfig
        Except.ok
          { layout := layout
            effectiveCropAnchor := effectiveCropAnchor
            validationErrors := layoutValidation.errors
            artwork := { left := frame.x, top := frame.y }
            artworkBorder := { left := max 0 artworkBorder.x,
                               top := max 0 artworkBorder.y }
            panels := panelLayersOf layout glowConfig
            texts := textLayersOf layout opts.textBoxes }

/-- Shared helper: under valid artwork inputs, composeCard returns the ok
plan whose every geometric field is computed from the resolved layout
alone; the advisory validation result only populates the warning field. -/
theorem composeCard_ok (opts : ComposeCardOptions) (w h : ℕ)
    (hlen : 0 < opts.artworkLen) (hmeta : opts.artworkMeta = some (w, h))
    (hw : w ≠ 0) (hh : h ≠ 0) :
    composeCard opts = Except.ok
      { layout := resolvedScaledLayout opts
        effectiveCropAnchor := opts.cropAnchor.getD
          (getDefaultCropAnchor (effectiveLayoutModeOf opts))
        validationErrors := (validateLayoutBorders (resolvedScaledLayout opts)
          (opts.glowIntensity.map getGlowConfig)).errors
        artwork := { left := (resolvedScaledLayout opts).artworkFrame.x,
                     top := (resolvedScaledLayout opts).artworkFrame.y }
        artworkBorder :=
          { left := max 0 (renderDoubleLineArtworkBorder
              (resolvedScaledLayout opts).artworkFrame
              (opts.glowIntensity.map getGlowConfig)).x
            top := max 0 (renderDoubleLineArtworkBorder
              (resolvedScaledLayout opts).artworkFrame
              (opts.glowIntensity.map getGlowConfig)).y }
        panels := panelLayersOf (resolvedScaledLayout opts)
          (opts.glowIntensity.map getGlowConfig)
        texts := textLayersOf (resolvedScaledLayout opts) opts.textBoxes } := by
  have hne : ¬ opts.artworkLen = 0 := by omega
  have hwh : ¬ (w = 0 ∨ h = 0) := by simp [hw, hh]
  simp only [composeCard, hmeta, if_neg hne, if_neg hwh]

/-- C4: Geometry validation is non-fatal: whenever the artwork buffer is
nonempty and decodable, composeCard succeeds and its composed plan is
computed from the resolved layout alone — validateLayoutBorders is
evaluated but its outcome only populates the advisory warning field and
has no effect on any placement, so rendering proceeds with the same
geometry whether validation passes or fails. -/
theorem composeCard_validation_nonfatal (opts : ComposeCardOptions) (w h : ℕ)
    (hlen : 0 < opts.artworkLen) (hmeta : opts.artworkMeta = some (w, h))
    (hw : w ≠ 0) (hh : h ≠ 0) :
    composeCard opts = Except.ok
      { layout := resolvedScaledLayout opts
        effectiveCropAnchor := opts.cropAnchor.getD
          (getDefaultCropAnchor (effectiveLayoutModeOf opts))
        validationErrors := (validateLayoutBorders (resolvedScaledLayout opts)
          (opts.glowIntensity.map getGlowConfig)).errors
        artwork := { left := (resolvedScaledLayout opts).artworkFrame.x,
                     top := (resolvedScaledLayout opts).artworkFrame.y }
        artworkBorder :=
          { left := max 0 (renderDoubleLineArtworkBorder
              (resolvedScaledLayout opts).artworkFrame
              (opts.glowIntensity.map getGlowConfig)).x
            top := max 0 (renderDoubleLineArtworkBorder
              (resolvedScaledLayout opts).artworkFrame
              (opts.glowIntensity.map getGlowConfig)).y }
        panels := panelLayersOf (resolvedScaledLayout opts)
          (opts.glowIntensity.map getGlowConfig)
        texts := textLayersOf (resolvedScaledLayout opts) opts.textBoxes } :=
  composeCard_ok opts w h hlen hmeta hw hh

/-- Concrete compose options: landscape-square variant, standard scale,
medium glow, only the title panel carrying text. -/
def exampleComposeOptions : ComposeCardOptions :=
  { backgroundLen := 4096
    artworkLen := 8192
    artworkMeta := some (720, 1280)
    textBoxes := [{ id := "title", text := "Hero" }]
    textBoxColorId := some "obsidian"
    layoutMode := .landscape
    layoutVariant := some .landscapeSquare
    borderPreset := some .gold
    glowIntensity := some .medium
    scalePreset := some .standard
    cropAnchor := none }

/-- Witness for C4 at exampleComposeOptions. -/
theorem composeCard_validation_nonfatal_witness :
    composeCard exampleComposeOptions = Except.ok
      { layout := resolvedScaledLayout exampleComposeOptions
        effectiveCropAnchor := exampleComposeOptions.cropAnchor.getD
          (getDefaultCropAnchor (effectiveLayoutModeOf exampleComposeOptions))
        validationErrors := (validateLayoutBorders
          (resolvedScaledLayout exampleComposeOptions)
          (exampleComposeOptions.glowIntensity.map getGlowConfig)).errors
        artwork :=
          { left := (resolvedScaledLayout exampleComposeOptions).artworkFrame.x,
            top := (resolvedScaledLayout exampleComposeOptions).artworkFrame.y }
        artworkBorder :=
          { left := max 0 (renderDoubleLineArtworkBorder
              (resolvedScaledLayout exampleComposeOptions).artworkFrame
              (exampleComposeOptions.glowIntensity.map getGlowConfig)).x
            top := max 0 (renderDoubleLineArtworkBorder
              (resolvedScaledLayout exampleComposeOptions).artworkFrame
              (exampleComposeOptions.glowIntensity.map getGlowConfig)).y }
        panels := panelLayersOf (resolvedScaledLayout exampleComposeOptions)
          (exampleComposeOptions.glowIntensity.map getGlowConfig)
        texts := textLayersOf (resolvedScaledLayout exampleComposeOptions)
          exampleComposeOptions.textBoxes } :=
  composeCard_validation_nonfatal exampleComposeOptions 720 1280
    (by norm_num [exampleComposeOptions]) rfl
    (by norm_num) (by norm_num)

/-- C8: A text panel whose id has no matching text entry (or whose text is
whitespace-only) is not an error: composeCard still succeeds, the plan
contains that panel with its background and border layers, and no text
glyph layer is produced for that panel id. -/
theorem composeCard_missingText_rendersPanel (opts : ComposeCardOptions)
    (w h : ℕ) (hlen : 0 < opts.artworkLen)
    (hmeta : opts.artworkMeta = some (w, h)) (hw : w ≠ 0) (hh : h ≠ 0)
    (box : BoxRect) (hbox : box ∈ getAllTextBoxes (resolvedScaledLayout opts))
    (hblank : jsTrim (((opts.textBoxes.find? (fun tb => tb.id == box.id)).map
      TextBoxConfig.text).getD "") = "") :
    ∃ res : ComposeResult, composeCard opts = Except.ok res ∧
      ({ box := box
         background := { left := box.x, top := box.y }
         border :=
           { left := max 0 (renderDoubleLineTextBoxBorder box.toRect
               (opts.glowIntensity.map getGlowConfig)).x
             top := max 0 (renderDoubleLineTextBoxBorder box.toRect
               (opts.glowIntensity.map getGlowConfig)).y } } : PanelLayer)
        ∈ res.panels ∧
      ∀ t ∈ res.texts, t.boxId ≠ box.id := by
  refine ⟨_, composeCard_ok opts w h hlen hmeta hw hh, ?_, ?_⟩
  · simp only [panelLayersOf, List.mem_map]
    exact ⟨box, hbox, rfl⟩
  · intro t ht
    simp only [textLayersOf, List.mem_filterMap] at ht
    obtain ⟨b2, hb2, hfb2⟩ := ht
    intro heq
    by_cases hcond : (jsTrim (((opts.textBoxes.find? (fun tb => tb.id == b2.id)).map
        TextBoxConfig.text).getD "") = "")
    · rw [if_pos hcond] at hfb2
      exact Option.noConfusion hfb2
    · rw [if_neg hcond] at hfb2
      have hid : t.boxId = b2.id := by
        cases hfb2
        rfl
      rw [hid] at heq
      rw [heq] at hcond
      exact hcond hblank

/-- The content1 box of the landscape-square catalogue layout. -/
def exampleContent1Box : BoxRect :=
  { id := "content1", x := 480, y := 190, width := 227, height := 244 }

/-- Witness for C8: at exampleComposeOptions the content1 panel has no
text entry; its background and border are still planned and no glyph
layer carries its id. -/
theorem composeCard_missingText_rendersPanel_witness :
    ∃ res : ComposeResult,
      composeCard exampleComposeOptions = Except.ok res ∧
      ({ box := exampleContent1Box
         background := { left := exampleContent1Box.x, top := exampleContent1Box.y }
         border :=
           { left := max 0 (renderDoubleLineTextBoxBorder
               exampleContent1Box.toRect
               (exampleComposeOptions.glowIntensity.map getGlowConfig)).x
             top := max 0 (renderDoubleLineTextBoxBorder
               exampleContent1Box.toRect
               (exampleComposeOptions.glowIntensity.map getGlowConfig)).y } }
         : PanelLayer) ∈ res.panels ∧
      ∀ t ∈ res.texts, t.boxId ≠ exampleContent1Box.id :=
  composeCard_missingText_rendersPanel exampleComposeOptions 720 1280
    (by norm_num [exampleComposeOptions]) rfl (by norm_num) (by norm_num)
    exampleContent1Box
    (by simp [getAllTextBoxes, resolvedScaledLayout, resolveBaseLayout,
      getLayoutConfigByVariant, LAYOUT_VARIANTS, exampleComposeOptions,
      exampleContent1Box])
    (by decide)

/-- Colour scheme of a frame preset. -/
structure ColorScheme where
  primary : String
  secondary : String
  accent : String
deriving DecidableEq, Repr

/-- Frame preset configuration (framePresets.ts FramePresetConfig). -/
structure FramePresetConfig where
  id : String
  name : String
  description : String
  cornerAsset : String
  borderAsset : String
  cornerSize : ℚ
  borderThickness : ℚ
  insetOffset : ℚ
  colorScheme : ColorScheme
deriving DecidableEq, Repr

/-- FRAME_PRESETS (framePresets.ts) as the runtime string-keyed record
lookup: a JavaScript property access on the record returns undefined for
any key outside the six preset ids. -/
def FRAME_PRESETS (presetId : String) : Option FramePresetConfig :=
  if presetId = "cyber" then
    some { id := "cyber", name := "cyber frame", description := "tech style"
           cornerAsset := "frames/cyber/corner.svg"
           borderAsset := "frames/cyber/border.svg"
           cornerSize := 100, borderThickness := 20, insetOffset := 10
           colorScheme := { primary := "#00D4FF", secondary := "#0A1628",
                            accent := "#FF00FF" } }
  else if presetId = "classic" then
    some { id := "classic", name := "classic frame", description := "baroque style"
           cornerAsset := "frames/classic/corner.svg"
           borderAsset := "frames/classic/border.svg"
           cornerSize := 110, borderThickness := 25, insetOffset := 8
           colorScheme := { primary := "#D4AF37", secondary := "#1A0F00",
                            accent := "#FFD700" } }
  else if presetId = "minimal" then
    some { id := "minimal", name := "minimal frame", description := "thin lines"
           cornerAsset := "frames/minimal/corner.svg"
           borderAsset := "frames/minimal/border.svg"
           cornerSize := 80, borderThickness := 15, insetOffset := 12
           colorScheme := { primary := "#FFFFFF", secondary := "#333333",
                            accent := "#888888" } }
  else if presetId = "fantasy" then
    some { id := "fantasy", name := "fantasy frame", description := "runes and vines"
           cornerAsset := "frames/fantasy/corner.svg"
           borderAsset := "frames/fantasy/border.svg"
           cornerSize := 105, borderThickness := 22, insetOffset := 10
           colorScheme := { primary := "#9B59B6", secondary := "#1A0A2E",
                            accent := "#00FF88" } }
  else if presetId = "battle" then
    some { id := "battle", name := "battle frame", description := "rust and rivets"
           cornerAsset := "frames/battle/corner.svg"
           borderAsset := "frames/battle/border.svg"
           cornerSize := 95, borderThickness := 24, insetOffset := 8
           colorScheme := { primary := "#8B4513", secondary := "#2F2F2F",
                            accent := "#CD853F" } }
  else if presetId = "none" then
    some { id := "none", name := "no frame", description := "no decorative frame"
           cornerAsset := "", borderAsset := ""
           cornerSize := 0, borderThickness := 0, insetOffset := 0
           colorScheme := { primary := "transparent", secondary := "transparent",
                            accent := "transparent" } }
  else
    none

/-- The six valid frame preset ids. -/
def VALID_PRESET_IDS : List String :=
  ["cyber", "classic", "minimal", "fantasy", "battle", "none"]

/-- isDecorativePreset: every preset except the literal id none. -/
def isDecorativePreset (presetId : String) : Bool :=
  presetId != "none"

/-- getScaleFactorForLayout (frame renderer): portrait variants render the
frame tiles at 95 percent, landscape variants and an absent variant at
100 percent. -/
def getScaleFactorForLayout (layoutVariant : Option LayoutVariant) : ℚ :=
  match layoutVariant with
  | none => 1
  | some v =>
    match v with
    | .portraitSquare | .portraitFlat => 95 / 100
    | .landscapeSquare | .landscapeFlat => 1

/-- The four corner positions. -/
inductive CornerPosition where
  | topLeft
  | topRight
  | bottomLeft
  | bottomRight
deriving DecidableEq, Repr

/-- The four edge-strip positions. -/
inductive BorderPosition where
  | top
  | right
  | bottom
  | left
deriving DecidableEq, Repr

/-- ALL_CORNERS iteration order of the frame renderer. -/
def ALL_CORNERS : List CornerPosition :=
  [.topLeft, .topRight, .bottomLeft, .bottomRight]

/-- ALL_BORDERS iteration order of the frame renderer. -/
def ALL_BORDERS : List BorderPosition :=
  [.top, .right, .bottom, .left]

/-- Mirror transform per corner (types/frame.ts CORNER_TRANSFORMS). -/
structure CornerTransform where
  flipHorizontal : Bool
  flipVertical : Bool
deriving DecidableEq, Repr

/-- CORNER_TRANSFORMS table. -/
def CORNER_TRANSFORMS (position : CornerPosition) : CornerTransform :=
  match position with
  | .topLeft => { flipHorizontal := false, flipVertical := false }
  | .topRight => { flipHorizontal := true, flipVertical := false }
  | .bottomLeft => { flipHorizontal := false, flipVertical := true }
  | .bottomRight => { flipHorizontal := true, flipVertical := true }

/-- 2D position. -/
structure Position where
  x : ℚ
  y : ℚ
deriving DecidableEq, Repr

/-- calculateCornerPosition (frame renderer): corner tile placement at
insetOffset from the matching canvas corner. -/
def calculateCornerPosition (position : CornerPosition)
    (cardWidth cardHeight cornerSize insetOffset : ℚ) : Position :=
  match position with
  | .topLeft => { x := insetOffset, y := insetOffset }
  | .topRight => { x := cardWidth - cornerSize - insetOffset, y := insetOffset }
  | .bottomLeft => { x := insetOffset, y := cardHeight - cornerSize - insetOffset }
  | .bottomRight => { x := cardWidth - cornerSize - insetOffset,
                      y := cardHeight - cornerSize - insetOffset }

/-- Edge-strip placement rectangle (types/frame.ts BorderDimensions for
strips; renamed to avoid the border-space record of the same source
name). -/
structure StripDimensions where
  x : ℚ
  y : ℚ
  width : ℚ
  height : ℚ
deriving DecidableEq, Repr

/-- calculateBorderPosition (frame renderer): each strip spans between the
far edges of the adjacent corner tiles; its rectangle thickness is the
borderThickness argument. -/
def calculateBorderPosition (position : BorderPosition)
    (cardWidth cardHeight cornerSize borderThickness insetOffset : ℚ) :
    StripDimensions :=
  let borderStart := cornerSize + insetOffset
  match position with
  | .top =>
    { x := borderStart, y := insetOffset,
      width := cardWidth - 2 * borderStart, height := borderThickness }
  | .bottom =>
    { x := borderStart, y := cardHeight - borderThickness - insetOffset,
      width := cardWidth - 2 * borderStart, height := borderThickness }
  | .left =>
    { x := insetOffset, y := borderStart,
      width := borderThickness, height := cardHeight - 2 * borderStart }
  | .right =>
    { x := cardWidth - borderThickness - insetOffset, y := borderStart,
      width := borderThickness, height := cardHeight - 2 * borderStart }

/-- A rendered corner tile: asset, raster size after scaling, mirror
transform, and integer placement. -/
structure CornerLayer where
  asset : String
  size : ℤ
  transform : CornerTransform
  left : ℤ
  top : ℤ
deriving DecidableEq, Repr

/-- A rendered edge strip: asset, resize length, raster thickness (the
resized tile height before any rotation), whether the tile is rotated 90
degrees for a vertical edge, and integer placement. -/
structure StripLayer where
  asset : String
  length : ℚ
  thickness : ℤ
  rotated : Bool
  left : ℤ
  top : ℤ
deriving DecidableEq, Repr

/-- One composited frame layer. -/
inductive FrameLayer where
  | corner (c : CornerLayer)
  | strip (s : StripLayer)
deriving DecidableEq, Repr

/-- renderCornerOrnament (frame renderer): resize the corner tile to
round (cornerSize * scaleFactor) square and mirror it per CORNER_TRANSFORMS
(both flips realised as a 180-degree rotation). -/
def renderCornerOrnament (preset : FramePresetConfig)
    (position : CornerPosition) (scaleFactor : ℚ) : String × ℤ × CornerTransform :=
  (preset.cornerAsset, jsRound (preset.cornerSize * scaleFactor),
    CORNER_TRANSFORMS position)

/-- renderBorderStrip (frame renderer): resize the horizontal border tile
to length times round (preset.borderThickness * scaleFactor) — note the
thickness is re-read from the preset, not from any caller override — and
rotate 90 degrees for the vertical (left / right) edges. -/
def renderBorderStrip (preset : FramePresetConfig)
    (position : BorderPosition) (length : ℚ) (scaleFactor : ℚ) :
    ℚ × ℤ × Bool :=
  let scaledThickness := jsRound (preset.borderThickness * scaleFactor)
  let isVertical := position = .left ∨ position = .right
  (length, scaledThickness, decide isVertical)

/-- Options of renderFrame (types/frame.ts FrameRenderOptions); the preset
id is the runtime string. -/
structure FrameRenderOptions where
  presetId : String
  cardWidth : ℚ
  cardHeight : ℚ
  layoutVariant : Option LayoutVariant
  insetOffset : Option ℚ
  borderThickness : Option ℚ
deriving DecidableEq, Repr

/-- Result of renderFrame over an abstract card image: the untouched base
image plus the composited frame layers in source order (corners first,
then the non-empty strips). -/
structure FrameComposite (α : Type u) where
  base : α
  layers : List FrameLayer

/-- renderFrame (frame renderer): resolve the preset (error for unknown
ids), return the input unchanged for the none preset, validate assets via
the supplied existence predicate, then plan the four mirrored corner tiles
and the four edge strips, skipping strips whose computed length is not
positive.  The inset offset is clamped to [0, 20]. -/
def renderFrame {α : Type u} (cardBuffer : α) (options : FrameRenderOptions)
    (assetExists : String → Bool) : Except String (FrameComposite α) :=
  match FRAME_PRESETS options.presetId with
  | none => Except.error ("invalid frame preset id: " ++ options.presetId)
  | some preset =>
    if ¬ isDecorativePreset options.presetId then
      Except.ok { base := cardBuffer, layers := [] }
    else if ¬ assetExists preset.cornerAsset then
      Except.error ("frame asset file missing: " ++ preset.cornerAsset)
    else if ¬ assetExists preset.borderAsset then
      Except.error ("frame asset file missing: " ++ preset.borderAsset)
    else
      let scaleFactor := getScaleFactorForLayout options.layoutVariant
      let insetOffset := options.insetOffset.getD preset.insetOffset
      let borderThickness := options.borderThickness.getD preset.borderThickness
      let cornerSize := (jsRound (preset.cornerSize * scaleFactor) : ℚ)
      let effectiveInsetOffset := max 0 (min 20 insetOffset)
      let corners := ALL_CORNERS.map (fun position =>
        let rendered := renderCornerOrnament preset position scaleFactor
        let cornerPos := calculateCornerPosition position options.cardWidth
          options.cardHeight cornerSize effectiveInsetOffset
        FrameLayer.corner
          { asset := rendered.1, size := rendered.2.1, transform := rendered.2.2,
            left := jsRound cornerPos.x, top := jsRound cornerPos.y })
      let strips := ALL_BORDERS.filterMap (fun position =>
        let borderDims := calculateBorderPosition position options.cardWidth
          options.cardHeight cornerSize
          ((jsRound (borderThickness * scaleFactor) : ℚ)) effectiveInsetOffset
        let borderLength :=
          if position = .top ∨ position = .bottom then borderDims.width
          else borderDims.height
        if 0 < borderLength then
          let rendered := renderBorderStrip preset position borderLength scaleFactor
          some (FrameLayer.strip
            { asset := preset.borderAsset, length := rendered.1,
              thickness := rendered.2.1, rotated := rendered.2.2,
              left := jsRound borderDims.x, top := jsRound borderDims.y })
        else none)
      Except.ok { base := cardBuffer, layers := corners ++ strips }

/-- C6: Frame preset none is the identity: for every card buffer, card
dimensions, layout variant and overrides, renderFrame with preset id none
returns the input buffer unchanged with no corner or edge tiles
composited. -/
theorem renderFrame_none_identity {α : Type u} (cardBuffer : α)
    (cardWidth cardHeight : ℚ) (layoutVariant : Option LayoutVariant)
    (insetOffset borderThickness : Option ℚ) (assetExists : String → Bool) :
    renderFrame cardBuffer
      { presetId := "none", cardWidth := cardWidth, cardHeight := cardHeight,
        layoutVariant := layoutVariant, insetOffset := insetOffset,
        borderThickness := borderThickness } assetExists =
      Except.ok { base := cardBuffer, layers := [] } := by
  rfl

/-- The raster thicknesses of the edge strips of a frame composite, in
layer order. -/
def stripThicknesses {α : Type u} (r : FrameComposite α) : List ℤ :=
  r.layers.filterMap (fun l =>
    match l with
    | .strip s => some s.thickness
    | .corner _ => none)

/-- C7 (failing-input evaluation): with the cyber preset on a 1024 x 768
landscape canvas and a caller borderThickness override of 30, all four
edge strips are rendered — none skipped, each of length 1024 or 768 minus
2 * (100 + 10) — but their raster thickness is 20 (round of the preset
thickness times scale 1), not the 30 (round of the override times scale)
used for the strip placement rectangles: renderBorderStrip re-reads
preset.borderThickness and ignores the override, contradicting the
documented override semantics the claim describes. -/
theorem renderFrame_thickness_override_divergence :
    (renderFrame (0 : ℕ)
        { presetId := "cyber", cardWidth := 1024, cardHeight := 768,
          layoutVariant := none, insetOffset := none,
          borderThickness := some 30 } (fun _ => true)).map stripThicknesses =
      Except.ok [20, 20, 20, 20] ∧
    jsRound (30 * getScaleFactorForLayout none) = 30 ∧
    (calculateBorderPosition .top 1024 768 100 30 10).height = 30 ∧
    (20 : ℤ) ≠ 30 := by
  refine ⟨?_, ?_, ?_, by decide⟩
  · norm_num +decide [renderFrame, FRAME_PRESETS, isDecorativePreset, ALL_CORNERS,
      ALL_BORDERS, renderCornerOrnament, renderBorderStrip,
      calculateCornerPosition, calculateBorderPosition,
      getScaleFactorForLayout, CORNER_TRANSFORMS, stripThicknesses,
      jsRound, List.filterMap, Except.map]
  · norm_num [jsRound, getScaleFactorForLayout]
  · norm_num [calculateBorderPosition]

/-- Blur intensity enum (blurConfig.ts). -/
inductive BlurIntensity where
  | light
  | medium
  | strong
deriving DecidableEq, Repr

/-- Blur configuration record. -/
structure BlurConfig where
  id : String
  name : String
  blur : ℚ
  opacity : ℚ
deriving DecidableEq, Repr

/-- BLUR_PRESETS table (blurConfig.ts): light 8px / 0.90, medium 12px /
0.85, strong 16px / 0.78. -/
def BLUR_PRESETS (i : BlurIntensity) : BlurConfig :=
  match i with
  | .light => { id := "light", name := "light blur", blur := 8, opacity := 90 / 100 }
  | .medium => { id := "medium", name := "medium blur", blur := 12, opacity := 85 / 100 }
  | .strong => { id := "strong", name := "strong blur", blur := 16, opacity := 78 / 100 }

/-- Runtime string lookup into BLUR_PRESETS (a JavaScript record access
returning undefined outside the enum). -/
def blurPresetLookup (s : String) : Option BlurConfig :=
  if s = "light" then some (BLUR_PRESETS .light)
  else if s = "medium" then some (BLUR_PRESETS .medium)
  else if s = "strong" then some (BLUR_PRESETS .strong)
  else none

/-- getBlurConfig (blurConfig.ts): BLUR_PRESETS[blurIntensity] with a
silent fallback to the medium preset for any key whose lookup is
undefined. -/
def getBlurConfig (blurIntensity : String) : BlurConfig :=
  (blurPresetLookup blurIntensity).getD (BLUR_PRESETS .medium)

/-- Premium panel colour option (cardComposer.ts). -/
structure PremiumColor where
  id : String
  name : String
  gradient : List String
deriving DecidableEq, Repr

/-- PREMIUM_TEXTBOX_COLORS (cardComposer.ts): the six colour options; the
obsidian entry is index 0. -/
def PREMIUM_TEXTBOX_COLORS : List PremiumColor :=
  [ { id := "obsidian", name := "obsidian",
      gradient := ["rgba(35, 35, 40, 0.92)", "rgba(20, 20, 25, 0.88)",
        "rgba(25, 25, 30, 0.92)"] },
    { id := "bronze", name := "bronze",
      gradient := ["rgba(160, 130, 90, 0.92)", "rgba(140, 110, 70, 0.88)",
        "rgba(150, 120, 80, 0.92)"] },
    { id := "slate", name := "slate",
      gradient := ["rgba(80, 90, 100, 0.92)", "rgba(60, 70, 80, 0.88)",
        "rgba(70, 80, 90, 0.92)"] },
    { id := "burgundy", name := "burgundy",
      gradient := ["rgba(120, 50, 60, 0.92)", "rgba(100, 40, 50, 0.88)",
        "rgba(110, 45, 55, 0.92)"] },
    { id := "forest", name := "forest",
      gradient := ["rgba(50, 80, 60, 0.92)", "rgba(40, 70, 50, 0.88)",
        "rgba(45, 75, 55, 0.92)"] },
    { id := "navy", name := "navy",
      gradient := ["rgba(45, 60, 90, 0.92)", "rgba(35, 50, 80, 0.88)",
        "rgba(40, 55, 85, 0.92)"] } ]

/-- getTextBoxColorGradient (cardComposer.ts): find the colour by id and
silently fall back to the gradient of PREMIUM_TEXTBOX_COLORS[0] (obsidian)
when the id is unknown. -/
def getTextBoxColorGradient (colorId : String) : List String :=
  match PREMIUM_TEXTBOX_COLORS.find? (fun c => c.id == colorId) with
  | some color => color.gradient
  | none => ((PREMIUM_TEXTBOX_COLORS.head?).map PremiumColor.gradient).getD []

/-- Counterexample for C9: at the concrete unknown ids ultra and copper,
getBlurConfig and getTextBoxColorGradient do not fail — they silently
substitute the medium blur preset and the obsidian gradient, refuting the
claim that every core lookup errors on ids outside its enum. -/
theorem unknownId_silent_default_counterexample :
    getBlurConfig "ultra" = BLUR_PRESETS BlurIntensity.medium ∧
    "ultra" ∉ ["light", "medium", "strong"] ∧
    getTextBoxColorGradient "copper" =
      ["rgba(35, 35, 40, 0.92)", "rgba(20, 20, 25, 0.88)",
        "rgba(25, 25, 30, 0.92)"] ∧
    "copper" ∉ ["obsidian", "bronze", "slate", "burgundy", "forest", "navy"] := by
  refine ⟨by rfl, by decide, by rfl, by decide⟩

/-- C9 (amended): for every id outside the respective enum, frame preset
resolution in renderFrame fails with an error, while getBlurConfig and
getTextBoxColorGradient silently substitute their documented defaults
(medium blur preset, obsidian gradient) instead of failing. -/
theorem unknownId_lookup_behavior (s : String) :
    (s ∉ VALID_PRESET_IDS →
      ∀ (α : Type) (cardBuffer : α) (cardWidth cardHeight : ℚ)
        (layoutVariant : Option LayoutVariant) (insetOffset borderThickness : Option ℚ)
        (assetExists : String → Bool),
        renderFrame cardBuffer
          { presetId := s, cardWidth := cardWidth, cardHeight := cardHeight,
            layoutVariant := layoutVariant, insetOffset := insetOffset,
            borderThickness := borderThickness } assetExists =
          Except.error ("invalid frame preset id: " ++ s)) ∧
    (s ∉ ["light", "medium", "strong"] →
      getBlurConfig s = BLUR_PRESETS BlurIntensity.medium) ∧
    (s ∉ ["obsidian", "bronze", "slate", "burgundy", "forest", "navy"] →
      getTextBoxColorGradient s =
        ["rgba(35, 35, 40, 0.92)", "rgba(20, 20, 25, 0.88)",
          "rgba(25, 25, 30, 0.92)"]) := by
  refine ⟨?_, ?_, ?_⟩
  · intro hmem α cardBuffer cardWidth cardHeight layoutVariant io bt assetExists
    simp only [VALID_PRESET_IDS, List.mem_cons, List.mem_singleton, not_or] at hmem
    obtain ⟨h1, h2, h3, h4, h5, h6⟩ := hmem
    simp [renderFrame, FRAME_PRESETS, h1, h2, h3, h4, h5, h6]
  · intro hmem
    simp only [List.mem_cons, List.mem_singleton, not_or] at hmem
    obtain ⟨h1, h2, h3⟩ := hmem
    simp [getBlurConfig, blurPresetLookup, h1, h2, h3]
  · intro hmem
    simp only [List.mem_cons, List.not_mem_nil, or_false, not_or] at hmem
    obtain ⟨h1, h2, h3, h4, h5, h6⟩ := hmem
    have b1 : ("obsidian" == s) = false := beq_eq_false_iff_ne.mpr (Ne.symm h1)
    have b2 : ("bronze" == s) = false := beq_eq_false_iff_ne.mpr (Ne.symm h2)
    have b3 : ("slate" == s) = false := beq_eq_false_iff_ne.mpr (Ne.symm h3)
    have b4 : ("burgundy" == s) = false := beq_eq_false_iff_ne.mpr (Ne.symm h4)
    have b5 : ("forest" == s) = false := beq_eq_false_iff_ne.mpr (Ne.symm h5)
    have b6 : ("navy" == s) = false := beq_eq_false_iff_ne.mpr (Ne.symm h6)
    simp [getTextBoxColorGradient, PREMIUM_TEXTBOX_COLORS, List.find?,
      b1, b2, b3, b4, b5, b6]

/-- Witness for C9 at the concrete unknown id ultra. -/
theorem unknownId_lookup_behavior_witness :
    renderFrame (0 : ℕ)
      { presetId := "ultra", cardWidth := 1024, cardHeight := 768,
        layoutVariant := none, insetOffset := none, borderThickness := none }
      (fun _ => true) = Except.error ("invalid frame preset id: " ++ "ultra") ∧
    getBlurConfig "ultra" = BLUR_PRESETS BlurIntensity.medium ∧
    getTextBoxColorGradient "ultra" =
      ["rgba(35, 35, 40, 0.92)", "rgba(20, 20, 25, 0.88)",
        "rgba(25, 25, 30, 0.92)"] :=
  ⟨(unknownId_lookup_behavior "ultra").1 (by decide) ℕ 0 1024 768
      Option.none Option.none Option.none (fun _ => true),
   (unknownId_lookup_behavior "ultra").2.1 (by decide),
   (unknownId_lookup_behavior "ultra").2.2 (by decide)⟩

/-- Characters per line used by both wrapText and calculateTextLines
(cardComposer.ts): floor ((maxWidth - 40) / (fontSize * 0.8)), the 40 being
the horizontal padding and fontSize * 0.8 the average glyph width. -/
def maxCharsPerLine (maxWidth fontSize : ℚ) : ℤ :=
  ⌊(maxWidth - 40) / (fontSize * (8 / 10))⌋

/-- Nat ceiling division, the exact value of Math.ceil (a / b) for the
integer lengths and positive divisors that reach it. -/
def ceilDivNat (a b : ℕ) : ℕ := (a + b - 1) / b

/-- The greedy substring loop of wrapText on one paragraph: emit the whole
remainder once it fits, otherwise emit exactly maxChars characters and
continue.  The source loops forever when maxChars is zero or negative;
the model returns the paragraph whole in that unreachable case and agrees
with the source on every maxChars of at least 1. -/
def chunkChars (k : ℕ) (s : List Char) : List (List Char) :=
  if h : s.length ≤ k ∨ k = 0 then [s]
  else s.take k :: chunkChars k (s.drop k)
termination_by s.length
decreasing_by
  push_neg at h
  simp only [List.length_drop]
  omega

/-- wrapText (cardComposer.ts): split the text on newlines and greedily
chunk every paragraph to at most maxCharsPerLine characters; strings are
modelled by their character lists. -/
def wrapText (text : String) (maxWidth fontSize : ℚ) : List (List Char) :=
  let maxChars := (maxCharsPerLine maxWidth fontSize).toNat
  (text.splitOn "\n").flatMap (fun paragraph => chunkChars maxChars paragraph.data)

/-- calculateTextLines (cardComposer.ts): one line for an empty paragraph,
otherwise the ceiling of paragraph length over maxCharsPerLine, summed
over the paragraphs. -/
def calculateTextLines (text : String) (maxWidth fontSize : ℚ) : ℕ :=
  let maxChars := (maxCharsPerLine maxWidth fontSize).toNat
  ((text.splitOn "\n").map (fun paragraph =>
    if paragraph.data.length = 0 then 1
    else ceilDivNat paragraph.data.length maxChars)).sum

/-- Helper: for a positive chunk width every emitted line has at most k
characters, and the number of chunks of one paragraph is 1 for the empty
paragraph and ceil (length / k) otherwise. -/
theorem chunkChars_spec (k : ℕ) (hk : 0 < k) :
    ∀ s : List Char,
      (∀ line ∈ chunkChars k s, line.length ≤ k) ∧
      (chunkChars k s).length =
        (if s.length = 0 then 1 else ceilDivNat s.length k) := by
  intro s
  induction s using chunkChars.induct k with
  | case1 s h =>
    rw [chunkChars, dif_pos h]
    rcases h with h | h
    · refine ⟨?_, ?_⟩
      · intro line hline
        simp only [List.mem_singleton] at hline
        exact hline ▸ h
      · by_cases h0 : s.length = 0
        · simp [h0]
        · have h1 : 1 ≤ s.length := by omega
          have : s.length + k - 1 = (s.length - 1) + k := by omega
          simp only [List.length_singleton, if_neg h0, ceilDivNat, this,
            Nat.add_div_right _ hk]
          rw [Nat.div_eq_of_lt (by omega)]
    · omega
  | case2 s h ih =>
    push_neg at h
    rw [chunkChars, dif_neg (by push_neg; exact h)]
    obtain ⟨ihb, ihc⟩ := ih
    refine ⟨?_, ?_⟩
    · intro line hline
      rcases List.mem_cons.mp hline with rfl | hline
      · simp only [List.length_take]
        omega
      · exact ihb line hline
    · have hlen : (s.drop k).length = s.length - k := List.length_drop ..
      have hne : ¬ s.length = 0 := by omega
      simp only [List.length_cons, ihc, hlen, if_neg hne, ceilDivNat]
      have hdne2 : ¬ s.length - k = 0 := by omega
      rw [if_neg hdne2]
      have e1 : s.length + k - 1 = (s.length - 1) + k := by omega
      have e2 : s.length - k + k - 1 = s.length - 1 := by omega
      rw [e1, e2, Nat.add_div_right _ hk]

/-- C10: Under the width precondition maxCharsPerLine at least 1, wrapText
terminates (it is a total function of the model) and every returned line
has at most maxCharsPerLine characters, and calculateTextLines returns
exactly the finite number of lines wrapText produces. -/
theorem wrapText_total_bounded (text : String) (maxWidth fontSize : ℚ)
    (hk : 1 ≤ maxCharsPerLine maxWidth fontSize) :
    (∀ line ∈ wrapText text maxWidth fontSize,
      (line.length : ℤ) ≤ maxCharsPerLine maxWidth fontSize) ∧
    (wrapText text maxWidth fontSize).length =
      calculateTextLines text maxWidth fontSize := by
  have hk0 : 0 < (maxCharsPerLine maxWidth fontSize).toNat := by omega
  constructor
  · intro line hline
    simp only [wrapText, List.mem_flatMap] at hline
    obtain ⟨p, hp, hmem⟩ := hline
    have hb := (chunkChars_spec _ hk0 p.data).1 line hmem
    have hcast : (line.length : ℤ) ≤
        (((maxCharsPerLine maxWidth fontSize).toNat : ℕ) : ℤ) :=
      Int.ofNat_le.mpr hb
    omega
  · simp only [wrapText, calculateTextLines, List.length_flatMap]
    refine congrArg List.sum (List.map_congr_left ?_)
    intro p hp
    exact (chunkChars_spec _ hk0 p.data).2

/-- Witness for C10: a content panel of width 227 at font size 36 gives
maxCharsPerLine 6; an 11-character paragraph wraps into 2 lines of at most
6 characters and calculateTextLines agrees. -/
theorem wrapText_total_bounded_witness :
    (∀ line ∈ wrapText "hello world" 227 36,
      (line.length : ℤ) ≤ maxCharsPerLine 227 36) ∧
    (wrapText "hello world" 227 36).length =
      calculateTextLines "hello world" 227 36 :=
  wrapText_total_bounded "hello world" 227 36 (by norm_num [maxCharsPerLine])
